import Mathlib

/-!
Verification of the Wall-IT wallpaper manager against its specification.

The Lean definitions below are a shallow embedding of the Python sources:
`wall-it-common.py`, `wall-it-monitor-state.py`, `wall-it-backend-manager.py`,
`wall-it-hyprland-backend.py` and `src/wallpaper-gui.py`.  Filesystem contents,
subprocess outcomes and discovery-tool output are modelled as explicit inputs;
Python exceptions are modelled with `Except` (an `Except.error` value marks an
uncaught exception escaping the translated function); Python dictionaries are
modelled as insertion-ordered association lists, matching CPython semantics.
-/

namespace WallIT

/-! ## Cache files (`wall-it-common.py`, `read_cache_file` and accessors) -/

/-- The observable state of one small cache file: absent, present but failing
to read (an exception escapes `read_text`), or present with string content. -/
inductive CacheFile
  | missing
  | unreadable
  | content (s : String)

/-- Embedding of `read_cache_file` (wall-it-common.py:24-37): return the
stripped content, except that a legacy `"a|b"` value yields the second
`'|'`-separated field; a missing or unreadable file yields the default. -/
def read_cache_file (f : CacheFile) (default : String) : String :=
  match f with
  | .missing => default
  | .unreadable => default
  | .content s =>
    let content := s.trim
    if content.contains '|' then
      let parts := content.splitOn "|"
      if 2 ≤ parts.length then parts.getD 1 "" else content
    else content

/-- Constant `config.DEFAULT_TRANSITION` (wall-it-config.py). -/
def DEFAULT_TRANSITION : String := "fade"

/-- Constant `config.DEFAULT_EFFECT` (wall-it-config.py). -/
def DEFAULT_EFFECT : String := "none"

/-- Constant `config.DEFAULT_KEYBIND_MODE` (wall-it-config.py). -/
def DEFAULT_KEYBIND_MODE : String := "all"

/-- Embedding of `get_transition_effect` (wall-it-common.py:51-53); the file
argument stands for the content of `config.TRANSITION_FILE`. -/
def get_transition_effect (f : CacheFile) : String :=
  read_cache_file f DEFAULT_TRANSITION

/-- Embedding of `get_current_effect` (wall-it-common.py:131-133). -/
def get_current_effect (f : CacheFile) : String :=
  read_cache_file f DEFAULT_EFFECT

/-- Embedding of `get_keybind_mode` (wall-it-common.py:141-143). -/
def get_keybind_mode (f : CacheFile) : String :=
  read_cache_file f DEFAULT_KEYBIND_MODE

/-- Restatement of the wording of claim C10, to be compared with `read_cache_file`:
missing or unreadable file returns the default; stripped content that contains
a `'|'` and splits into at least two parts returns exactly the second field;
otherwise the stripped content is returned unchanged. -/
def read_cache_file_claim (f : CacheFile) (default : String) : String :=
  match f with
  | .missing => default
  | .unreadable => default
  | .content s =>
    let c := s.trim
    if c.contains '|' ∧ 2 ≤ (c.splitOn "|").length then (c.splitOn "|").getD 1 ""
    else c

/-! ## Transition sanitization (`validate_transition` and the GUI inline copy) -/

/-- Embedding of `validate_transition` (wall-it-common.py:212-227): without
transition support force "none"; otherwise replace the problematic "none"
and "random" values by "fade". -/
def validate_transition (transition : String) (backend_supports_transitions : Bool) : String :=
  if !backend_supports_transitions then "none"
  else if transition = "none" ∨ transition = "random" then "fade"
  else transition

/-- Embedding of the inline sanitization in `WallpaperSetter.set_wallpaper`
(src/wallpaper-gui.py:2185-2196), which performs the same normalization with
two separate branches. -/
def gui_sanitize_transition (transition : String) (supports : Bool) : String :=
  if !supports then "none"
  else if transition = "none" then "fade"
  else if transition = "random" then "fade"
  else transition

/-! ## GUI wallpaper pipeline (`WallpaperSetter.set_wallpaper`, src/wallpaper-gui.py)

The backend-manager branch of `set_wallpaper` (lines 2145-2224) is embedded as
a function producing a success flag and the ordered trace of its externally
visible actions: the backend dispatch, the discovery call, the symlink
operations on the current-wallpaper pointer, and the per-monitor recording via
`set_monitor_wallpaper`.  The rate limiter, temp-file cleanup, matugen call and
index update touch none of these observables and carry no events.  Backend
responses (capability flags, dispatch result, discovery output, effect
processing result) are inputs of the model. -/

/-- A Python monitor dict as handed back by `backend_manager.get_monitors()`;
the GUI only reads its "connector" and "name" string fields. -/
abbrev PyDict := List (String × String)

/-- Python `d.get(k, default)` on a string-valued dict. -/
def pyGet (d : PyDict) (k : String) (default : String) : String :=
  match d with
  | [] => default
  | (k1, v) :: rest => if k1 = k then v else pyGet rest k default

/-- Embedding of the connector-or-name lookup in the all-monitors loop
(src/wallpaper-gui.py:2211): dict key "connector", falling back to key
"name", falling back to the empty string. -/
def connOrName (d : PyDict) : String :=
  pyGet d "connector" (pyGet d "name" "")

/-- Externally visible actions of one `set_wallpaper` pipeline run. -/
inductive Ev
  | dispatch (path : String) (monitor : Option String) (transition : String)
  | discoverCall
  | unlinkPointer
  | linkPointer (target : String)
  | record (connector : String) (path : String)
deriving Repr, DecidableEq

/-- Environment of one GUI `set_wallpaper` call: what the backend manager and
the filesystem answer when the pipeline consults them. -/
structure GuiEnv where
  supports_transitions : Bool
  dispatch_ok : Bool
  discovered : List PyDict
  pointer_exists : Bool
  pil_available : Bool
  effect_result : Option String

/-- The path handed to dispatch after the effect stage
(src/wallpaper-gui.py:2165-2180): the effect derivative when an effect was
requested, PIL is available and processing returned a path; else the original. -/
def guiProcessedPath (env : GuiEnv) (image_path effect : String) : String :=
  if effect ≠ "none" ∧ env.pil_available then
    match env.effect_result with
    | some p => p
    | none => image_path
  else image_path

/-- The `set_monitor_wallpaper` calls issued by the all-monitors loop
(src/wallpaper-gui.py:2209-2214): one record per discovered monitor whose
connector-or-name is non-empty, always with the original image path. -/
def guiRecordEvents (monitors : List PyDict) (image_path : String) : List Ev :=
  monitors.filterMap fun d =>
    let n := connOrName d
    if n ≠ "" then some (Ev.record n image_path) else none

/-- Embedding of the backend-manager branch of `WallpaperSetter.set_wallpaper`
(src/wallpaper-gui.py:2145-2224): effect stage, transition sanitization,
dispatch, and on success the pointer update (unlink existing, then symlink to
the original) followed by per-monitor state recording, using a fresh
`get_monitors()` call when no monitor was given. -/
def guiSetWallpaper (env : GuiEnv) (image_path : String) (monitor : Option String)
    (transition effect : String) : Bool × List Ev :=
  let processed := guiProcessedPath env image_path effect
  let t := gui_sanitize_transition transition env.supports_transitions
  let dispatchEv := Ev.dispatch processed monitor t
  if env.dispatch_ok then
    let pointerEvs := (if env.pointer_exists then [Ev.unlinkPointer] else []) ++
      [Ev.linkPointer image_path]
    let stateEvs :=
      match monitor with
      | some m =>
        if m = "" then Ev.discoverCall :: guiRecordEvents env.discovered image_path
        else [Ev.record m image_path]
      | none => Ev.discoverCall :: guiRecordEvents env.discovered image_path
    (true, dispatchEv :: (pointerEvs ++ stateEvs))
  else
    (false, [dispatchEv])

/-! ## Pointer-link semantics of a trace -/

/-- State of the global current-wallpaper link: `none` when the path does not
exist for a reader. -/
structure LinkFS where
  real : Option String
deriving Repr, DecidableEq

/-- Effect of one pipeline event on the current-wallpaper link. -/
def stepEv (fs : LinkFS) : Ev → LinkFS
  | .unlinkPointer => { real := none }
  | .linkPointer t => { real := some t }
  | _ => fs

/-- All link states a reader can observe while a trace executes, including the
initial and final states. -/
def statesAlong (fs : LinkFS) : List Ev → List LinkFS
  | [] => [fs]
  | e :: es => fs :: statesAlong (stepEv fs e) es

/-- Final link state after a trace executes. -/
def replay (fs : LinkFS) (evs : List Ev) : LinkFS :=
  evs.foldl stepEv fs

/-- State of `~/.current-wallpaper` and its `.tmp` sibling for the common-module
updater. -/
structure SymlinkFS where
  real : Option String
  tmp : Option String
deriving Repr, DecidableEq

/-- Embedding of `update_wallpaper_symlink` (wall-it-common.py:190-209) as the
sequence of filesystem states it passes through: remove any stale temp link,
create the temp link to the target, then atomically rename it over the real
path. -/
def commonUpdateStates (fs : SymlinkFS) (target : String) : List SymlinkFS :=
  let fs1 : SymlinkFS := { fs with tmp := none }
  let fs2 : SymlinkFS := { fs1 with tmp := some target }
  let fs3 : SymlinkFS := { real := some target, tmp := none }
  [fs, fs1, fs2, fs3]

/-! ## Monitor state store (`wall-it-monitor-state.py`)

The persisted document is JSON; `MonitorStateManager` keeps it in memory as a
Python dict.  JSON values are modelled by `JVal`, Python dicts by
insertion-ordered association lists.  `json.dump` followed by `json.load` is
the identity on such values, so the file is modelled as holding the `JVal`
itself. -/

/-- A JSON value as produced by `json.load`. -/
inductive JVal
  | jstr (s : String)
  | jnum (n : Int)
  | jbool (b : Bool)
  | jnull
  | jarr (xs : List JVal)
  | jdict (kvs : List (String × JVal))

/-- Python dict key lookup. -/
def dictLookup : List (String × JVal) → String → Option JVal
  | [], _ => none
  | (k1, v) :: rest, k => if k1 = k then some v else dictLookup rest k

/-- Python `key in dict`. -/
def dictHasKey (kvs : List (String × JVal)) (k : String) : Bool :=
  (dictLookup kvs k).isSome

/-- Python `dict[key] = value`: overwrite in place, else append. -/
def dictSet : List (String × JVal) → String → JVal → List (String × JVal)
  | [], k, v => [(k, v)]
  | (k1, v1) :: rest, k, v =>
    if k1 = k then (k1, v) :: rest else (k1, v1) :: dictSet rest k v

/-- Observable content of the monitor-state file: absent, unreadable
(`open`/`read` raised), syntactically invalid JSON (`json.JSONDecodeError`), or
a JSON document. -/
inductive StoredFile
  | missing
  | unreadable
  | invalidJson
  | json (v : JVal)

/-- The reset document `{"monitors": {}}` (wall-it-monitor-state.py:64). -/
def defaultState : JVal := .jdict [("monitors", .jdict [])]

/-- Embedding of `MonitorStateManager._load_state`
(wall-it-monitor-state.py:48-64): a missing, unreadable or invalid file, a
non-dict document, or a dict without the `"monitors"` key all reset to
`{"monitors": {}}`; a dict carrying a `"monitors"` key is returned as-is (the
value under `"monitors"` is not validated). -/
def loadState (f : StoredFile) : JVal :=
  match f with
  | .json (.jdict kvs) => if dictHasKey kvs "monitors" then .jdict kvs else defaultState
  | _ => defaultState

/-- Embedding of `MonitorStateManager.set_current_wallpaper`
(wall-it-monitor-state.py:106-112) up to the save: insert an empty dict for
an unknown monitor, then set its `"current_wallpaper"` field.  `Except.error`
marks the uncaught Python exception raised when the in-memory state does not
have the dict shape these subscript operations assume. -/
def setCurrentWallpaper (st : JVal) (monitor path : String) : Except String JVal :=
  match st with
  | .jdict kvs =>
    match dictLookup kvs "monitors" with
    | some (.jdict ms) =>
      let ms1 := if dictHasKey ms monitor then ms else dictSet ms monitor (.jdict [])
      match dictLookup ms1 monitor with
      | some (.jdict md) =>
        .ok (.jdict (dictSet kvs "monitors"
          (.jdict (dictSet ms1 monitor
            (.jdict (dictSet md "current_wallpaper" (.jstr path)))))))
      | _ => .error "TypeError"
    | some _ => .error "TypeError"
    | none => .error "KeyError"
  | _ => .error "TypeError"

/-- Embedding of `MonitorStateManager.get_monitor_state`
(wall-it-monitor-state.py:144-146): `self.state["monitors"].get(monitor, {})`;
raises when the state lacks the assumed dict shape. -/
def get_monitor_state (st : JVal) (monitor : String) : Except String JVal :=
  match st with
  | .jdict kvs =>
    match dictLookup kvs "monitors" with
    | some (.jdict ms) => .ok ((dictLookup ms monitor).getD (.jdict []))
    | some _ => .error "AttributeError"
    | none => .error "KeyError"
  | _ => .error "TypeError"

/-- The state file and its `.tmp` sibling. -/
structure StoreFS where
  real : StoredFile
  tmp : Option StoredFile

/-- Embedding of `MonitorStateManager._save_state`
(wall-it-monitor-state.py:66-78) as the sequence of filesystem states it
passes through: dump the whole document to the temp file, then atomically
rename the temp file over the real path. -/
def saveTrace (fs : StoreFS) (st : JVal) : List StoreFS :=
  let fs1 : StoreFS := { fs with tmp := some (.json st) }
  let fs2 : StoreFS := { real := .json st, tmp := none }
  [fs, fs1, fs2]

/-- The observable `connector → current_wallpaper` mapping of a state
document (the field read by `get_current_wallpaper`,
wall-it-monitor-state.py:96-99, before its filesystem existence check). -/
def wallpaperMap (st : JVal) (monitor : String) : Option String :=
  match st with
  | .jdict kvs =>
    match dictLookup kvs "monitors" with
    | some (.jdict ms) =>
      match dictLookup ms monitor with
      | some (.jdict md) =>
        match dictLookup md "current_wallpaper" with
        | some (.jstr s) => some s
        | _ => none
      | _ => none
    | _ => none
  | _ => none

/-- A state document with the dict shape assumed by the manager accessors. -/
def WellformedState (st : JVal) : Prop :=
  ∃ kvs ms, st = JVal.jdict kvs ∧ dictLookup kvs "monitors" = some (.jdict ms)

/-! ## Niri monitor-output parsing (`NiriBackend.get_monitors`,
wall-it-backend-manager.py:102-156)

The three `re` patterns are embedded as executable matchers.  Each character
class in them excludes its closing delimiter, so a greedy run always extends
exactly to the next delimiter and `re.search` semantics reduce to: try an
anchored match at each position from the left, return the first success. -/

/-- Python `\s` (ASCII whitespace as matched on this tool output). -/
def isPySpace (c : Char) : Bool :=
  c = ' ' ∨ c = '\t' ∨ c = '\n' ∨ c = '\r' ∨ c = '\x0b' ∨ c = '\x0c'

/-- Python `str.split(delim)` for a one-character delimiter: always at least
one (possibly empty) part, one more part per delimiter occurrence. -/
def splitOnChar (delim : Char) : List Char → List (List Char)
  | [] => [[]]
  | c :: cs =>
    let r := splitOnChar delim cs
    if c = delim then [] :: r
    else
      match r with
      | [] => [[c]]
      | p :: rest => (c :: p) :: rest

/-- Python `str.strip()`: drop leading and trailing whitespace. -/
def pyStripChars (cs : List Char) : List Char :=
  ((cs.dropWhile isPySpace).reverse.dropWhile isPySpace).reverse

/-- Strip an exact literal prefix, returning the remainder. -/
def dropLit : List Char → List Char → Option (List Char)
  | [], cs => some cs
  | _, [] => none
  | l :: ls, c :: cs => if c = l then dropLit ls cs else none

/-- Split at the first occurrence of a delimiter character: the characters
before it and the remainder after it. -/
def takeUntil (delim : Char) : List Char → Option (List Char × List Char)
  | [] => none
  | c :: cs =>
    if c = delim then some ([], cs)
    else
      match takeUntil delim cs with
      | some (p, r) => some (c :: p, r)
      | none => none

/-- Anchored match of `Output "([^\"]+)" \(([^)]+)\)` at the start of the
input, yielding the display name and connector groups. -/
def matchHeaderAt (cs : List Char) : Option (String × String) :=
  match dropLit ("Output \"".data) cs with
  | none => none
  | some r1 =>
    match takeUntil '"' r1 with
    | none => none
    | some (nm, r2) =>
      if nm.isEmpty then none
      else
        match dropLit (" (".data) r2 with
        | none => none
        | some r3 =>
          match takeUntil ')' r3 with
          | none => none
          | some (conn, _) =>
            if conn.isEmpty then none else some (nm.asString, conn.asString)

/-- Search of `output_pattern`: first position at which the header pattern
matches. -/
def headerSearch : List Char → Option (String × String)
  | [] => none
  | c :: cs =>
    match matchHeaderAt (c :: cs) with
    | some r => some r
    | none => headerSearch cs

/-- Anchored match of `Current mode:\s*(\d+x\d+)\s*@\s*([\d.]+)`, yielding the
resolution and refresh-rate groups. -/
def matchModeAt (cs : List Char) : Option (String × String) :=
  match dropLit ("Current mode:".data) cs with
  | none => none
  | some r1 =>
    let r2 := r1.dropWhile isPySpace
    let w := r2.takeWhile Char.isDigit
    let r3 := r2.dropWhile Char.isDigit
    if w.isEmpty then none
    else
      match dropLit ['x'] r3 with
      | none => none
      | some r4 =>
        let h := r4.takeWhile Char.isDigit
        let r5 := r4.dropWhile Char.isDigit
        if h.isEmpty then none
        else
          match dropLit ['@'] (r5.dropWhile isPySpace) with
          | none => none
          | some r6 =>
            let f := (r6.dropWhile isPySpace).takeWhile fun c => c.isDigit ∨ c = '.'
            if f.isEmpty then none
            else some ((w ++ 'x' :: h).asString, f.asString)

/-- Search of `mode_pattern`. -/
def modeSearch : List Char → Option (String × String)
  | [] => none
  | c :: cs =>
    match matchModeAt (c :: cs) with
    | some r => some r
    | none => modeSearch cs

/-- Anchored match of `Scale:\s*([\d.]+)`. -/
def matchScaleAt (cs : List Char) : Option String :=
  match dropLit ("Scale:".data) cs with
  | none => none
  | some r1 =>
    let f := (r1.dropWhile isPySpace).takeWhile fun c => c.isDigit ∨ c = '.'
    if f.isEmpty then none else some f.asString

/-- Search of `scale_pattern`. -/
def scaleSearch : List Char → Option String
  | [] => none
  | c :: cs =>
    match matchScaleAt (c :: cs) with
    | some r => some r
    | none => scaleSearch cs

/-- One parsed Niri monitor record. -/
structure NiriMonitor where
  name : String
  connector : String
  resolution : String
  scale : String
  refresh_rate : String
deriving Repr, DecidableEq

/-- The freshly initialized record for a matched header line
(wall-it-backend-manager.py:131-138): "Unknown" resolution sentinel, default
scale and refresh rate. -/
def initMonitor (nm conn : String) : NiriMonitor :=
  { name := nm, connector := conn, resolution := "Unknown", scale := "1.0",
    refresh_rate := "60.0" }

/-- The per-line loop of `NiriBackend.get_monitors`
(wall-it-backend-manager.py:117-156): a header match flushes the current
record and starts a new one; with a record open, a mode match sets resolution
and refresh rate and a scale match sets scale; any other line is skipped; the
last open record is flushed at the end. -/
def niriParseLoop : List (List Char) → Option NiriMonitor → List NiriMonitor
  | [], cur =>
    match cur with
    | some m => [m]
    | none => []
  | line :: rest, cur =>
    match headerSearch (pyStripChars line) with
    | some (nm, conn) =>
      let ms := niriParseLoop rest (some (initMonitor nm conn))
      match cur with
      | some m => m :: ms
      | none => ms
    | none =>
      match cur with
      | none => niriParseLoop rest none
      | some m =>
        match modeSearch (pyStripChars line) with
        | some (res, rr) =>
          niriParseLoop rest (some { m with resolution := res, refresh_rate := rr })
        | none =>
          match scaleSearch (pyStripChars line) with
          | some sc => niriParseLoop rest (some { m with scale := sc })
          | none => niriParseLoop rest (some m)

/-- Embedding of `NiriBackend.get_monitors` applied to the raw `niri msg outputs` text:
split on newlines and run the parsing loop. -/
def niriParse (raw : String) : List NiriMonitor :=
  niriParseLoop (splitOnChar '\n' raw.data) none

/-- The header groups of the input lines, in order. -/
def headersOf (lines : List (List Char)) : List (String × String) :=
  lines.filterMap fun l => headerSearch (pyStripChars l)

/-- The effect of one non-header line on the open record
(wall-it-backend-manager.py:141-152): a mode match sets resolution and refresh
rate, else a scale match sets scale, else the line is skipped. -/
def lineUpdate (m : NiriMonitor) (line : List Char) : NiriMonitor :=
  match modeSearch (pyStripChars line) with
  | some (res, rr) => { m with resolution := res, refresh_rate := rr }
  | none =>
    match scaleSearch (pyStripChars line) with
    | some sc => { m with scale := sc }
    | none => m

/-- The record a header block denotes: the freshly initialized record folded
through the body lines of the block. -/
def blockRecord (nm conn : String) (body : List (List Char)) : NiriMonitor :=
  body.foldl lineUpdate (initMonitor nm conn)

/-- Block decomposition of the input: each header line opens a block
`(name, connector, body)` whose body is the run of non-header lines that
follows it; lines before the first header belong to no block.  The
accumulator carries the open block with its body reversed. -/
def niriBlocksAux :
    List (List Char) → Option (String × String × List (List Char)) →
      List (String × String × List (List Char))
  | [], acc =>
    match acc with
    | some (nm, conn, body) => [(nm, conn, body.reverse)]
    | none => []
  | line :: rest, acc =>
    match headerSearch (pyStripChars line) with
    | some (nm, conn) =>
      match acc with
      | some (nm0, conn0, body0) =>
        (nm0, conn0, body0.reverse) :: niriBlocksAux rest (some (nm, conn, []))
      | none => niriBlocksAux rest (some (nm, conn, []))
    | none =>
      match acc with
      | none => niriBlocksAux rest none
      | some (nm0, conn0, body0) => niriBlocksAux rest (some (nm0, conn0, line :: body0))

/-- The header blocks of the input, in order. -/
def niriBlocks (lines : List (List Char)) : List (String × String × List (List Char)) :=
  niriBlocksAux lines none

/-! ## Hyprland monitor-output parsing (`HyprlandBackend.get_monitors`,
wall-it-hyprland-backend.py:59-87)

`hyprctl monitors -j` output is decoded by `json.loads`; the loop reads each
element with `.get` and builds a heterogeneous record dict.  Only
`CalledProcessError` and `JSONDecodeError` are caught, so any other exception
escapes `get_monitors`; `Except.error` marks that. -/

/-- Outcome of the `hyprctl monitors -j` invocation plus JSON decoding:
command failure, undecodable stdout, or a decoded JSON value. -/
inductive HyprDiscovery
  | cmdError
  | badJson
  | jsonVal (v : JVal)

/-- Python `for x in v`: lists iterate elements, dicts iterate keys, strings
iterate one-character strings; other JSON scalars raise `TypeError`. -/
def hyprIter : JVal → Except String (List JVal)
  | .jarr xs => .ok xs
  | .jdict kvs => .ok (kvs.map fun kv => JVal.jstr kv.1)
  | .jstr s => .ok (s.data.map fun c => JVal.jstr (String.singleton c))
  | _ => .error "TypeError"

/-- Python str() of a JSON scalar as interpolated by the f-string building
`resolution`. -/
def pyFormat : JVal → String
  | .jstr s => s
  | .jnum n => toString n
  | .jbool true => "True"
  | .jbool false => "False"
  | .jnull => "None"
  | .jarr _ => "[...]"
  | .jdict _ => "\x7b...\x7d"

/-- One iteration of the record-building loop
(wall-it-hyprland-backend.py:68-80): elements without the `.get` interface
raise `AttributeError`. -/
def hyprRecord : JVal → Except String (List (String × JVal))
  | .jdict kvs =>
    let name := (dictLookup kvs "name").getD (.jstr "Unknown")
    let width := (dictLookup kvs "width").getD (.jnum 0)
    let height := (dictLookup kvs "height").getD (.jnum 0)
    let primary := (dictLookup kvs "focused").getD (.jbool false)
    .ok [("id", name), ("name", name), ("connector", name),
      ("resolution", .jstr (pyFormat width ++ "x" ++ pyFormat height)),
      ("primary", primary)]
  | _ => .error "AttributeError"

/-- The record-building loop over the decoded elements: the first exception
escapes, otherwise all records are collected in order. -/
def hyprRecordLoop : List JVal → Except String (List (List (String × JVal)))
  | [] => .ok []
  | x :: xs =>
    match hyprRecord x with
    | .error e => .error e
    | .ok r =>
      match hyprRecordLoop xs with
      | .error e => .error e
      | .ok rs => .ok (r :: rs)

/-- Embedding of `HyprlandBackend.get_monitors`: tool failure and JSON decode failure are
caught and yield the empty list; any exception inside the loop escapes. -/
def hyprGetMonitors (d : HyprDiscovery) : Except String (List (List (String × JVal))) :=
  match d with
  | .cmdError => .ok []
  | .badJson => .ok []
  | .jsonVal v =>
    match hyprIter v with
    | .error e => .error e
    | .ok elems => hyprRecordLoop elems

/-! ## Availability probes (`NiriBackend.is_available`,
wall-it-backend-manager.py:91-100; `HyprlandBackend.is_available`,
wall-it-hyprland-backend.py:44-57)

`subprocess.run(cmd, check=True)` raises `CalledProcessError` on a non-zero
exit and `FileNotFoundError` when the binary is absent from `PATH`; each probe
outcome is an input of the model.  The `try` blocks catch only
`CalledProcessError`. -/

/-- Outcome of one `subprocess.run(..., check=True)` probe. -/
inductive ProbeRes
  | ok
  | exitNonzero
  | notFound
deriving Repr, DecidableEq

/-- Embedding of `NiriBackend.is_available`: run `swww query` then
`which niri`; a non-zero exit is caught and yields `False`; a missing binary
raises `FileNotFoundError`, which the method does not catch. -/
def niri_is_available (swwwQuery whichNiri : ProbeRes) : Except String Bool :=
  match swwwQuery with
  | .exitNonzero => .ok false
  | .notFound => .error "FileNotFoundError"
  | .ok =>
    match whichNiri with
    | .exitNonzero => .ok false
    | .notFound => .error "FileNotFoundError"
    | .ok => .ok true

/-- Python `needle in hay` on strings: contiguous substring test. -/
def containsSub (needle : List Char) : List Char → Bool
  | [] => (dropLit needle []).isSome
  | c :: cs => (dropLit needle (c :: cs)).isSome || containsSub needle cs

/-- Embedding of `HyprlandBackend.is_available`: environment marker first
(substring test of "Hyprland" against XDG_CURRENT_DESKTOP), then running
`hyprctl monitors`;
non-zero exit is caught, a missing binary raises. -/
def hyprland_is_available (current_desktop : String) (hyprctlMonitors : ProbeRes) :
    Except String Bool :=
  if !(containsSub ("Hyprland".data) current_desktop.data) then .ok false
  else
    match hyprctlMonitors with
    | .exitNonzero => .ok false
    | .notFound => .error "FileNotFoundError"
    | .ok => .ok true

/-! ## Focused-monitor queries (`NiriBackend.get_active_monitor`,
wall-it-backend-manager.py:179-198; `HyprlandBackend.get_active_monitor`,
wall-it-hyprland-backend.py:89-106) -/

/-- Outcome of the focused-output query command. -/
inductive CmdResult
  | failed
  | output (stdout : String)

/-- Index of the last occurrence of a character (`str.rfind`). -/
def rfindIdx (cs : List Char) (c : Char) : Option Nat :=
  match cs with
  | [] => none
  | x :: xs =>
    match rfindIdx xs c with
    | some i => some (i + 1)
    | none => if x = c then some 0 else none

/-- One line of the `niri msg focused-output` reply
(wall-it-backend-manager.py:185-190): a line starting with `Output` and
containing both parens returns the slice between the last `(` and the last
`)` (possibly empty); other lines yield nothing. -/
def niriActiveLineParse (line : List Char) : Option String :=
  if (dropLit ("Output".data) line).isSome ∧ line.contains '(' ∧ line.contains ')' then
    match rfindIdx line '(', rfindIdx line ')' with
    | some i, some j => some (((line.drop (i + 1)).take (j - (i + 1))).asString)
    | _, _ => none
  else none

/-- The first line of the reply that parses, as returned by the loop. -/
def niriFocusedFromLines : List (List Char) → Option String
  | [] => none
  | l :: ls =>
    match niriActiveLineParse l with
    | some r => some r
    | none => niriFocusedFromLines ls

/-- Embedding of `NiriBackend.get_active_monitor`: a failed query command is
caught (`CalledProcessError`) and the method returns `None` without any
fallback; on success, the first parseable output line wins, else the first
monitor of a fresh discovery (the `monitors` argument is the result of that
discovery), else `None`. -/
def niri_get_active_monitor (query : CmdResult) (monitors : List NiriMonitor) :
    Option String :=
  match query with
  | .failed => none
  | .output out =>
    match niriFocusedFromLines (splitOnChar '\n' (pyStripChars out.data)) with
    | some conn => some conn
    | none =>
      match monitors with
      | [] => none
      | m :: _ => some m.connector

/-- Python truthiness of a JSON value. -/
def pyTruthy : JVal → Bool
  | .jbool b => b
  | .jnum n => !(n == 0)
  | .jstr s => !(s == "")
  | .jnull => false
  | .jarr xs => !xs.isEmpty
  | .jdict kvs => !kvs.isEmpty

/-- The focused-monitor loop (wall-it-hyprland-backend.py:95-97): first
element with a truthy `focused` field returns its `name`; a non-dict element
raises. -/
def hyprFindFocused : List JVal → Except String (Option JVal)
  | [] => .ok none
  | m :: rest =>
    match m with
    | .jdict kvs =>
      if pyTruthy ((dictLookup kvs "focused").getD (.jbool false)) then
        .ok (some ((dictLookup kvs "name").getD .jnull))
      else hyprFindFocused rest
    | _ => .error "AttributeError"

/-- Body of the Hyprland `get_active_monitor` `try` block: focused-monitor
loop, then the first-element name fallback guarded by truthiness
of the decoded value. -/
def hyprActiveCore (v : JVal) : Except String (Option JVal) :=
  match hyprIter v with
  | .error e => .error e
  | .ok elems =>
    match hyprFindFocused elems with
    | .error e => .error e
    | .ok (some nm) => .ok (some nm)
    | .ok none =>
      if pyTruthy v then
        match v with
        | .jarr (x :: _) =>
          match x with
          | .jdict kvs => .ok (some ((dictLookup kvs "name").getD .jnull))
          | _ => .error "AttributeError"
        | .jdict _ => .error "KeyError"
        | .jstr _ => .error "AttributeError"
        | _ => .error "TypeError"
      else .ok none

/-- Embedding of `HyprlandBackend.get_active_monitor`: the broad
`except Exception` turns command failure, undecodable JSON and every exception
inside the loop into `None`. -/
def hypr_get_active_monitor (d : HyprDiscovery) : Option JVal :=
  match d with
  | .cmdError => none
  | .badJson => none
  | .jsonVal v =>
    match hyprActiveCore v with
    | .error _ => none
    | .ok r => r

/-! ## Theorems: C10, C1 (pure parts) -/

/-- C10: for every cache file read through `read_cache_file` (and hence through
`get_transition_effect`, `get_current_effect`, `get_keybind_mode`): a missing or
unreadable file returns the given default; stripped content containing `'|'`
that splits into at least two parts returns only the second field; otherwise
the stripped content is returned unchanged. -/
theorem C10_read_cache_file_behavior :
    (∀ f d, read_cache_file f d = read_cache_file_claim f d) ∧
    (∀ f, get_transition_effect f = read_cache_file_claim f "fade") ∧
    (∀ f, get_current_effect f = read_cache_file_claim f "none") ∧
    (∀ f, get_keybind_mode f = read_cache_file_claim f "all") := by
  have h : ∀ f d, read_cache_file f d = read_cache_file_claim f d := by
    intro f d
    cases f with
    | missing => rfl
    | unreadable => rfl
    | content s =>
      simp only [read_cache_file, read_cache_file_claim]
      by_cases hc : s.trim.contains '|'
      · by_cases hl : 2 ≤ (s.trim.splitOn "|").length
        · simp [hc, hl]
        · simp [hc, hl]
      · simp [hc]
  exact ⟨h, fun f => h f _, fun f => h f _, fun f => h f _⟩

/-- C1: for a request whose transition is `"none"` or `"random"`, a
transition-capable backend is dispatched with `"fade"`, and a backend without
transition support is always dispatched with `"none"`; both for the shared
`validate_transition` helper and for the inline copy in the GUI pipeline, whose
dispatch event heads the pipeline trace. -/
theorem C1_transition_sanitized (t : String) :
    ((t = "none" ∨ t = "random") →
      validate_transition t true = "fade" ∧ gui_sanitize_transition t true = "fade") ∧
    (validate_transition t false = "none" ∧ gui_sanitize_transition t false = "none") ∧
    (∀ env img monitor e, (t = "none" ∨ t = "random") → env.supports_transitions = true →
      (guiSetWallpaper env img monitor t e).2.head? =
        some (Ev.dispatch (guiProcessedPath env img e) monitor "fade")) ∧
    (∀ env img monitor e, env.supports_transitions = false →
      (guiSetWallpaper env img monitor t e).2.head? =
        some (Ev.dispatch (guiProcessedPath env img e) monitor "none")) := by
  refine ⟨?_, ?_, ?_, ?_⟩
  · rintro (rfl | rfl) <;> exact ⟨rfl, rfl⟩
  · constructor <;> rfl
  · intro env img monitor e ht hs
    have hfade : gui_sanitize_transition t env.supports_transitions = "fade" := by
      rw [hs]; rcases ht with rfl | rfl <;> rfl
    simp only [guiSetWallpaper, hfade]
    cases h : env.dispatch_ok <;> simp [h]
  · intro env img monitor e hs
    have hnone : gui_sanitize_transition t env.supports_transitions = "none" := by
      rw [hs]; rfl
    simp only [guiSetWallpaper, hnone]
    cases h : env.dispatch_ok <;> simp [h]

/-- C1 witness: a concrete `"none"` request against a transition-capable
backend is dispatched with `"fade"`. -/
theorem C1_transition_sanitized_witness :
    validate_transition "none" true = "fade" ∧ gui_sanitize_transition "none" true = "fade" :=
  (C1_transition_sanitized "none").1 (Or.inl rfl)

/-- Recording per-monitor state never touches the current-wallpaper link. -/
theorem foldl_stepEv_records (fs : LinkFS) (ms : List PyDict) (p : String) :
    List.foldl stepEv fs (guiRecordEvents ms p) = fs := by
  induction ms generalizing fs with
  | nil => rfl
  | cons d rest ih =>
    by_cases hn : connOrName d = "" <;>
      simp [guiRecordEvents, List.filterMap_cons, hn, stepEv] at ih ⊢ <;>
      exact ih fs

/-- C4 counterexample: a successful GUI apply over an existing pointer passes
through an intermediate state in which the current-wallpaper link does not
exist at all (the GUI unlinks the old link before creating the new one,
src/wallpaper-gui.py:2203-2205), refuting the claimed temp-link-and-rename
atomicity of the pointer update after every successful apply. -/
theorem C4_counterexample :
    LinkFS.mk none ∈
      statesAlong (LinkFS.mk (some "/w/old.png"))
        (guiSetWallpaper
          { supports_transitions := true, dispatch_ok := true, discovered := [],
            pointer_exists := true, pil_available := false, effect_result := none }
          "/w/new.png" none "fade" "none").2 := by
  simp [guiSetWallpaper, guiProcessedPath, gui_sanitize_transition, guiRecordEvents,
    statesAlong, stepEv]

/-- C4 amended: after every successful apply the pointer targets the original,
unmodified image (every link creation in the GUI trace targets the original
path, and the final link state is the original); the common-module helper
`update_wallpaper_symlink` is atomic — at every intermediate state the real
link holds either the complete old target or the complete new one, ending at
the new one — but the pointer update of the GUI pipeline unlinks the existing
link before re-creating it, so a reader can briefly observe a missing pointer
there. -/
theorem C4_pointer_original_and_common_atomic :
    (∀ env img monitor t e tgt,
      Ev.linkPointer tgt ∈ (guiSetWallpaper env img monitor t e).2 → tgt = img) ∧
    (∀ env img monitor t e fs, env.dispatch_ok = true →
      replay fs (guiSetWallpaper env img monitor t e).2 = LinkFS.mk (some img)) ∧
    (∀ fs target s, s ∈ commonUpdateStates fs target →
      s.real = fs.real ∨ s.real = some target) ∧
    (∀ fs target, (commonUpdateStates fs target).getLast? =
      some (SymlinkFS.mk (some target) none)) := by
  refine ⟨?_, ?_, ?_, ?_⟩
  · intro env img monitor t e tgt hmem
    by_cases hd : env.dispatch_ok
    · rcases monitor with _ | m
      · by_cases hp : env.pointer_exists <;>
          simp [guiSetWallpaper, hd, hp, guiRecordEvents] at hmem <;> exact hmem
      · by_cases hm : m = "" <;> by_cases hp : env.pointer_exists <;>
          simp [guiSetWallpaper, hd, hp, hm, guiRecordEvents] at hmem <;> exact hmem
    · simp [guiSetWallpaper, hd] at hmem
  · intro env img monitor t e fs hd
    simp only [guiSetWallpaper, hd, if_true, replay]
    rcases monitor with _ | m
    · by_cases hp : env.pointer_exists <;>
        simp [hp, stepEv, List.foldl_append, foldl_stepEv_records]
    · by_cases hm : m = "" <;> by_cases hp : env.pointer_exists <;>
        simp [hm, hp, stepEv, List.foldl_append, foldl_stepEv_records]
  · intro fs target s hs
    simp only [commonUpdateStates, List.mem_cons, List.mem_singleton,
      List.not_mem_nil, or_false] at hs
    rcases hs with rfl | rfl | rfl | rfl
    · exact Or.inl rfl
    · exact Or.inl rfl
    · exact Or.inl rfl
    · exact Or.inr rfl
  · intro fs target
    rfl

/-- C4 witness: running the common-module updater over a concrete filesystem,
the state after the atomic rename holds the complete new target. -/
theorem C4_pointer_original_and_common_atomic_witness :
    SymlinkFS.mk (some "/w/b.png") none ∈
      commonUpdateStates (SymlinkFS.mk (some "/w/a.png") (some "/w/t")) "/w/b.png" ∧
    ((SymlinkFS.mk (some "/w/b.png") none).real =
        (SymlinkFS.mk (some "/w/a.png") (some "/w/t")).real ∨
      (SymlinkFS.mk (some "/w/b.png") none).real = some "/w/b.png") :=
  ⟨by simp [commonUpdateStates],
    C4_pointer_original_and_common_atomic.2.2.1 _ _ _ (by simp [commonUpdateStates])⟩

/-- C5: an apply with no monitor selected that reaches a successful dispatch
performs a `get_monitors()` discovery call, and the per-monitor records of the
run are exactly one record per monitor of that discovery result (with non-empty
connector-or-name), each holding the original image path — the model has no
cached monitor list and the records are derived from the discovery result by
construction. -/
theorem C5_all_monitors_fresh_discovery (env : GuiEnv) (img t e : String)
    (hok : env.dispatch_ok = true) :
    Ev.discoverCall ∈ (guiSetWallpaper env img none t e).2 ∧
    (∀ d ∈ env.discovered, connOrName d ≠ "" →
      Ev.record (connOrName d) img ∈ (guiSetWallpaper env img none t e).2) ∧
    (∀ c p, Ev.record c p ∈ (guiSetWallpaper env img none t e).2 →
      p = img ∧ ∃ d ∈ env.discovered, connOrName d = c) := by
  refine ⟨?_, ?_, ?_⟩
  · by_cases hp : env.pointer_exists <;> simp [guiSetWallpaper, hok, hp]
  · intro d hd hn
    by_cases hp : env.pointer_exists <;>
      simp [guiSetWallpaper, hok, hp, guiRecordEvents, List.mem_filterMap] <;>
      exact ⟨d, hd, hn, rfl⟩
  · intro c p hmem
    by_cases hp : env.pointer_exists <;>
      simp [guiSetWallpaper, hok, hp, guiRecordEvents, List.mem_filterMap] at hmem <;>
      · rcases hmem with ⟨d, hd, hd2⟩
        by_cases hn : connOrName d = "" <;> simp [hn] at hd2
        exact ⟨hd2.2.symm, d, hd, hd2.1⟩

/-- C5 witness: with one freshly discovered monitor `DP-1`, the successful
all-monitors apply records the original image for `DP-1`. -/
theorem C5_all_monitors_fresh_discovery_witness :
    Ev.discoverCall ∈
      (guiSetWallpaper
        { supports_transitions := true, dispatch_ok := true,
          discovered := [[("connector", "DP-1")]], pointer_exists := false,
          pil_available := false, effect_result := none }
        "/w/a.png" none "fade" "none").2 ∧
    Ev.record "DP-1" "/w/a.png" ∈
      (guiSetWallpaper
        { supports_transitions := true, dispatch_ok := true,
          discovered := [[("connector", "DP-1")]], pointer_exists := false,
          pil_available := false, effect_result := none }
        "/w/a.png" none "fade" "none").2 := by
  refine ⟨(C5_all_monitors_fresh_discovery _ _ _ _ rfl).1, ?_⟩
  have h := (C5_all_monitors_fresh_discovery
    { supports_transitions := true, dispatch_ok := true,
      discovered := [[("connector", "DP-1")]], pointer_exists := false,
      pil_available := false, effect_result := none }
    "/w/a.png" "fade" "none" rfl).2.1 [("connector", "DP-1")] (by simp) (by decide)
  simpa [connOrName, pyGet] using h

/-- Looking up the key just set yields the new value. -/
theorem dictLookup_dictSet_self (kvs : List (String × JVal)) (k : String) (v : JVal) :
    dictLookup (dictSet kvs k v) k = some v := by
  induction kvs with
  | nil => simp [dictSet, dictLookup]
  | cons kv rest ih =>
    by_cases h : kv.1 = k <;> simp [dictSet, dictLookup, h, ih]

/-- Setting one key leaves lookups of other keys unchanged. -/
theorem dictLookup_dictSet_ne (kvs : List (String × JVal)) (k : String) (v : JVal)
    (c : String) (hne : c ≠ k) :
    dictLookup (dictSet kvs k v) c = dictLookup kvs c := by
  have hkc : ¬ k = c := fun h => hne h.symm
  induction kvs with
  | nil => simp [dictSet, dictLookup, hkc]
  | cons kv rest ih =>
    by_cases h : kv.1 = k
    · simp [dictSet, dictLookup, h, hkc, ih]
    · by_cases h2 : kv.1 = c <;> simp [dictSet, dictLookup, h, h2, hkc, hne, ih]

/-- C2: from any well-shaped in-memory state, `set_current_wallpaper` produces
a document that `_load_state` reads back identically after the save, so the
`connector → current_wallpaper` mapping survives a process restart; the new
mapping holds the new path for the written connector and is unchanged
elsewhere; and the save passes only through filesystem states whose real file
is the complete old document or the complete new document (the temp-file write
then atomic rename never exposes a partial document). -/
theorem C2_state_roundtrip_atomic (kvs ms : List (String × JVal)) (monitor path : String)
    (hms : dictLookup kvs "monitors" = some (.jdict ms))
    (hmon : dictLookup ms monitor = none ∨
      ∃ md, dictLookup ms monitor = some (.jdict md)) :
    ∃ st2, setCurrentWallpaper (.jdict kvs) monitor path = .ok st2 ∧
      loadState (.json st2) = st2 ∧
      (∀ c, wallpaperMap (loadState (.json st2)) c = wallpaperMap st2 c) ∧
      wallpaperMap st2 monitor = some path ∧
      (∀ c, c ≠ monitor → wallpaperMap st2 c = wallpaperMap (.jdict kvs) c) ∧
      (∀ fs s, s ∈ saveTrace fs st2 → s.real = fs.real ∨ s.real = .json st2) := by
  have hset : ∃ md, setCurrentWallpaper (.jdict kvs) monitor path =
      .ok (.jdict (dictSet kvs "monitors"
        (.jdict (dictSet (if dictHasKey ms monitor then ms
            else dictSet ms monitor (.jdict [])) monitor
          (.jdict (dictSet md "current_wallpaper" (.jstr path))))))) ∧
      ((dictHasKey ms monitor = false ∧ md = []) ∨
        dictLookup ms monitor = some (.jdict md)) := by
    rcases hmon with hnone | ⟨md, hmd⟩
    · have hkey : dictHasKey ms monitor = false := by simp [dictHasKey, hnone]
      refine ⟨[], ?_, Or.inl ⟨hkey, rfl⟩⟩
      simp [setCurrentWallpaper, hms, hkey, dictLookup_dictSet_self]
    · have hkey : dictHasKey ms monitor = true := by simp [dictHasKey, hmd]
      refine ⟨md, ?_, Or.inr hmd⟩
      simp [setCurrentWallpaper, hms, hkey, hmd]
  rcases hset with ⟨md, hok, hcase⟩
  set ms1 := if dictHasKey ms monitor then ms else dictSet ms monitor (.jdict []) with hms1
  set ms2 := dictSet ms1 monitor (.jdict (dictSet md "current_wallpaper" (.jstr path)))
    with hms2
  set kvs2 := dictSet kvs "monitors" (.jdict ms2) with hkvs2
  have hload : loadState (.json (.jdict kvs2)) = .jdict kvs2 := by
    simp [loadState, dictHasKey, hkvs2, dictLookup_dictSet_self]
  refine ⟨.jdict kvs2, hok, hload, ?_, ?_, ?_, ?_⟩
  · intro c; rw [hload]
  · simp [wallpaperMap, hkvs2, dictLookup_dictSet_self, hms2]
  · intro c hc
    have h1 : dictLookup ms1 c = dictLookup ms c := by
      rcases hcase with ⟨hkey, _⟩ | hmd
      · rw [hms1, hkey]
        simp only [if_false, Bool.false_eq_true]
        exact dictLookup_dictSet_ne ms monitor _ c hc
      · have hkey : dictHasKey ms monitor = true := by simp [dictHasKey, hmd]
        rw [hms1, hkey]; simp
    simp [wallpaperMap, hkvs2, dictLookup_dictSet_self, hms2,
      dictLookup_dictSet_ne _ monitor _ c hc, h1, hms]
  · intro fs s hs
    simp only [saveTrace, List.mem_cons, List.mem_singleton, List.not_mem_nil,
      or_false] at hs
    rcases hs with rfl | rfl | rfl
    · exact Or.inl rfl
    · exact Or.inl rfl
    · exact Or.inr rfl

/-- C2 witness: writing `DP-1 → /w/a.png` into the empty store round-trips
through save and reload. -/
theorem C2_state_roundtrip_atomic_witness :
    ∃ st2, setCurrentWallpaper (.jdict [("monitors", .jdict [])]) "DP-1" "/w/a.png" =
        .ok st2 ∧
      loadState (.json st2) = st2 ∧
      (∀ c, wallpaperMap (loadState (.json st2)) c = wallpaperMap st2 c) ∧
      wallpaperMap st2 "DP-1" = some "/w/a.png" ∧
      (∀ c, c ≠ "DP-1" →
        wallpaperMap st2 c = wallpaperMap (.jdict [("monitors", .jdict [])]) c) ∧
      (∀ fs s, s ∈ saveTrace fs st2 → s.real = fs.real ∨ s.real = .json st2) :=
  C2_state_roundtrip_atomic [("monitors", .jdict [])] [] "DP-1" "/w/a.png" rfl (Or.inl rfl)

/-- C9 counterexample: a well-formed JSON object whose `"monitors"` value is
the number 42 is accepted by `_load_state` unchanged (the shape check only
tests `"monitors" in state`), and `get_monitor_state` then raises
`AttributeError` — refuting the claim that the loaded state always carries a
dictionary under `"monitors"` and that the accessors never fail. -/
theorem C9_counterexample :
    loadState (.json (.jdict [("monitors", .jnum 42)])) = .jdict [("monitors", .jnum 42)] ∧
    get_monitor_state (.jdict [("monitors", .jnum 42)]) "DP-1" = .error "AttributeError" :=
  ⟨rfl, rfl⟩

/-- C9 amended: `_load_state` always returns a dict that has the `"monitors"`
key (resetting on missing, unreadable, invalid-JSON, non-dict or keyless
inputs) but does not validate that the `"monitors"` value is itself a dict;
when the value is a dict, `get_monitor_state` succeeds, and a successful
`set_current_wallpaper` always leaves the state well-shaped. -/
theorem C9_state_shape :
    (∀ f, ∃ kvs, loadState f = .jdict kvs ∧ dictHasKey kvs "monitors" = true) ∧
    (∀ st m, WellformedState st → ∃ v, get_monitor_state st m = .ok v) ∧
    (∀ st m p st2, setCurrentWallpaper st m p = .ok st2 → WellformedState st2) := by
  refine ⟨?_, ?_, ?_⟩
  · intro f
    match f with
    | .missing | .unreadable | .invalidJson => exact ⟨_, rfl, rfl⟩
    | .json v =>
      match v with
      | .jstr _ | .jnum _ | .jbool _ | .jnull | .jarr _ => exact ⟨_, rfl, rfl⟩
      | .jdict kvs =>
        by_cases h : dictHasKey kvs "monitors"
        · exact ⟨kvs, by simp [loadState, h], h⟩
        · exact ⟨[("monitors", .jdict [])], by simp [loadState, h, defaultState], rfl⟩
  · rintro st m ⟨kvs, ms, rfl, hms⟩
    exact ⟨(dictLookup ms m).getD (.jdict []), by simp [get_monitor_state, hms]⟩
  · intro st m p st2 hok
    match st with
    | .jstr _ | .jnum _ | .jbool _ | .jnull | .jarr _ =>
      simp [setCurrentWallpaper] at hok
    | .jdict kvs =>
      match hm : dictLookup kvs "monitors" with
      | none => simp [setCurrentWallpaper, hm] at hok
      | some (.jstr _) | some (.jnum _) | some (.jbool _) | some .jnull
      | some (.jarr _) => simp [setCurrentWallpaper, hm] at hok
      | some (.jdict ms) =>
        simp only [setCurrentWallpaper, hm] at hok
        set ms1 := if dictHasKey ms m then ms else dictSet ms m (.jdict []) with hms1
        match hm1 : dictLookup ms1 m with
        | none => rw [hm1] at hok; simp at hok
        | some (.jstr _) | some (.jnum _) | some (.jbool _) | some .jnull
        | some (.jarr _) => rw [hm1] at hok; simp at hok
        | some (.jdict md) =>
          rw [hm1] at hok
          simp only [Except.ok.injEq] at hok
          subst hok
          exact ⟨_, _, rfl, dictLookup_dictSet_self kvs "monitors" _⟩

/-- C9 witness: loading the reset document gives a dict with the `"monitors"`
key, and `get_monitor_state` succeeds on it. -/
theorem C9_state_shape_witness :
    ∃ v, get_monitor_state (JVal.jdict [("monitors", .jdict [])]) "DP-1" = .ok v :=
  C9_state_shape.2.1 _ "DP-1" ⟨[("monitors", .jdict [])], [], rfl, rfl⟩

/-- A non-empty character list denotes a non-empty string. -/
theorem asString_ne_empty (l : List Char) (h : l ≠ []) : l.asString ≠ "" := by
  intro h2
  apply h
  have h3 := congrArg String.data h2
  simpa [List.asString] using h3

/-- Both groups of a successful anchored header match are non-empty: the
pattern classes `[^"]+` and `[^)]+` each require at least one character. -/
theorem matchHeaderAt_nonempty (cs : List Char) (nm conn : String)
    (h : matchHeaderAt cs = some (nm, conn)) : nm ≠ "" ∧ conn ≠ "" := by
  unfold matchHeaderAt at h
  split at h
  · simp at h
  · split at h
    · simp at h
    · split at h
      · simp at h
      · split at h
        · simp at h
        · split at h
          · simp at h
          · split at h
            · simp at h
            · simp only [Option.some.injEq, Prod.mk.injEq] at h
              obtain ⟨h1, h2⟩ := h
              subst h1
              subst h2
              constructor <;> apply asString_ne_empty <;> simp_all [List.isEmpty_iff]

/-- Both groups of a successful header search are non-empty. -/
theorem headerSearch_nonempty :
    ∀ cs nm conn, headerSearch cs = some (nm, conn) → nm ≠ "" ∧ conn ≠ "" := by
  intro cs
  induction cs with
  | nil => intro nm conn h; simp [headerSearch] at h
  | cons c cs ih =>
    intro nm conn h
    unfold headerSearch at h
    split at h
    · rename_i r hr
      cases h
      exact matchHeaderAt_nonempty _ _ _ hr
    · exact ih _ _ h

/-- The records of the parsing loop carry exactly the header groups of the
input, in order, preceded by the still-open record handed in. -/
theorem niriParseLoop_ids (lines : List (List Char)) :
    ∀ cur, (niriParseLoop lines cur).map (fun m => (m.name, m.connector)) =
      (cur.map fun m => (m.name, m.connector)).toList ++ headersOf lines := by
  induction lines with
  | nil =>
    intro cur
    cases cur <;> simp [niriParseLoop, headersOf]
  | cons line rest ih =>
    intro cur
    match hh : headerSearch (pyStripChars line) with
    | some (nm, conn) =>
      cases cur <;> simp [niriParseLoop, hh, headersOf, ih, initMonitor]
    | none =>
      cases cur with
      | none => simp [niriParseLoop, hh, headersOf, ih]
      | some m =>
        match hm : modeSearch (pyStripChars line) with
        | some (res, rr) => simp [niriParseLoop, hh, hm, headersOf, ih]
        | none =>
          match hs : scaleSearch (pyStripChars line) with
          | some sc => simp [niriParseLoop, hh, hm, hs, headersOf, ih]
          | none => simp [niriParseLoop, hh, hm, hs, headersOf, ih]

/-- Every record of the parsing loop has non-empty name and connector,
provided the open record handed in does. -/
theorem niriParseLoop_conn (lines : List (List Char)) :
    ∀ cur, (∀ c, cur = some c → c.connector ≠ "" ∧ c.name ≠ "") →
      ∀ m ∈ niriParseLoop lines cur, m.connector ≠ "" ∧ m.name ≠ "" := by
  induction lines with
  | nil =>
    intro cur hcur m hm
    cases cur with
    | none => simp [niriParseLoop] at hm
    | some c =>
      simp [niriParseLoop] at hm
      exact hm ▸ hcur c rfl
  | cons line rest ih =>
    intro cur hcur m hm
    match hh : headerSearch (pyStripChars line) with
    | some (nm, conn) =>
      have hnc := headerSearch_nonempty _ _ _ hh
      have hinit : ∀ c, some (initMonitor nm conn) = some c →
          c.connector ≠ "" ∧ c.name ≠ "" := by
        rintro c hc
        cases hc
        exact ⟨hnc.2, hnc.1⟩
      cases cur with
      | none =>
        simp only [niriParseLoop, hh] at hm
        exact ih _ hinit m hm
      | some c0 =>
        simp only [niriParseLoop, hh, List.mem_cons] at hm
        rcases hm with rfl | hm
        · exact hcur m rfl
        · exact ih _ hinit m hm
    | none =>
      cases cur with
      | none =>
        simp only [niriParseLoop, hh] at hm
        exact ih _ (by rintro c hc; cases hc) m hm
      | some c0 =>
        have hc0 := hcur c0 rfl
        match hmo : modeSearch (pyStripChars line) with
        | some (res, rr) =>
          simp only [niriParseLoop, hh, hmo] at hm
          exact ih _ (by rintro c hc; cases hc; exact hc0) m hm
        | none =>
          match hs : scaleSearch (pyStripChars line) with
          | some sc =>
            simp only [niriParseLoop, hh, hmo, hs] at hm
            exact ih _ (by rintro c hc; cases hc; exact hc0) m hm
          | none =>
            simp only [niriParseLoop, hh, hmo, hs] at hm
            exact ih _ (by rintro c hc; cases hc; exact hc0) m hm

/-- The resolution of a record is the "Unknown" sentinel unless some input line
matched the mode pattern, or the record was handed in open with that
resolution already set. -/
theorem niriParseLoop_resolution (lines : List (List Char)) :
    ∀ cur, ∀ m ∈ niriParseLoop lines cur,
      m.resolution = "Unknown" ∨
      (∃ l ∈ lines, ∃ rr, modeSearch (pyStripChars l) = some (m.resolution, rr)) ∨
      (∃ c, cur = some c ∧ m.resolution = c.resolution) := by
  induction lines with
  | nil =>
    intro cur m hm
    cases cur with
    | none => simp [niriParseLoop] at hm
    | some c =>
      simp [niriParseLoop] at hm
      exact Or.inr (Or.inr ⟨c, rfl, by rw [hm]⟩)
  | cons line rest ih =>
    intro cur m hm
    match hh : headerSearch (pyStripChars line) with
    | some (nm, conn) =>
      have hrec : ∀ m2, m2 ∈ niriParseLoop rest (some (initMonitor nm conn)) →
          m2.resolution = "Unknown" ∨
          (∃ l ∈ line :: rest, ∃ rr, modeSearch (pyStripChars l) = some (m2.resolution, rr)) := by
        intro m2 hm2
        rcases ih (some (initMonitor nm conn)) m2 hm2 with h | ⟨l, hl, rr, hlm⟩ | ⟨c, hc, hres⟩
        · exact Or.inl h
        · exact Or.inr ⟨l, List.mem_cons_of_mem _ hl, rr, hlm⟩
        · cases hc; exact Or.inl hres
      cases cur with
      | none =>
        simp only [niriParseLoop, hh] at hm
        rcases hrec m hm with h | h
        · exact Or.inl h
        · exact Or.inr (Or.inl h)
      | some c0 =>
        simp only [niriParseLoop, hh, List.mem_cons] at hm
        rcases hm with rfl | hm
        · exact Or.inr (Or.inr ⟨m, rfl, rfl⟩)
        · rcases hrec m hm with h | h
          · exact Or.inl h
          · exact Or.inr (Or.inl h)
    | none =>
      cases cur with
      | none =>
        simp only [niriParseLoop, hh] at hm
        rcases ih none m hm with h | ⟨l, hl, rr, hlm⟩ | ⟨c, hc, _⟩
        · exact Or.inl h
        · exact Or.inr (Or.inl ⟨l, List.mem_cons_of_mem _ hl, rr, hlm⟩)
        · cases hc
      | some c0 =>
        match hmo : modeSearch (pyStripChars line) with
        | some (res, rr0) =>
          simp only [niriParseLoop, hh, hmo] at hm
          rcases ih _ m hm with h | ⟨l, hl, rr, hlm⟩ | ⟨c, hc, hres⟩
          · exact Or.inl h
          · exact Or.inr (Or.inl ⟨l, List.mem_cons_of_mem _ hl, rr, hlm⟩)
          · cases hc
            exact Or.inr (Or.inl ⟨line, List.mem_cons_self _ _, rr0, by rw [hres]; exact hmo⟩)
        | none =>
          match hs : scaleSearch (pyStripChars line) with
          | some sc =>
            simp only [niriParseLoop, hh, hmo, hs] at hm
            rcases ih _ m hm with h | ⟨l, hl, rr, hlm⟩ | ⟨c, hc, hres⟩
            · exact Or.inl h
            · exact Or.inr (Or.inl ⟨l, List.mem_cons_of_mem _ hl, rr, hlm⟩)
            · cases hc
              exact Or.inr (Or.inr ⟨c0, rfl, hres⟩)
          | none =>
            simp only [niriParseLoop, hh, hmo, hs] at hm
            rcases ih _ m hm with h | ⟨l, hl, rr, hlm⟩ | ⟨c, hc, hres⟩
            · exact Or.inl h
            · exact Or.inr (Or.inl ⟨l, List.mem_cons_of_mem _ hl, rr, hlm⟩)
            · cases hc
              exact Or.inr (Or.inr ⟨c0, rfl, hres⟩)

/-- The Hyprland record loop succeeds on any list of JSON objects. -/
theorem hyprRecordLoop_dicts (xs : List JVal) :
    (∀ x ∈ xs, ∃ kvs, x = JVal.jdict kvs) → ∃ rs, hyprRecordLoop xs = .ok rs := by
  induction xs with
  | nil => intro _; exact ⟨[], rfl⟩
  | cons x rest ih =>
    intro hxs
    rcases hxs x (List.mem_cons_self _ _) with ⟨kvs, rfl⟩
    rcases ih (fun y hy => hxs y (List.mem_cons_of_mem _ hy)) with ⟨rs, hrs⟩
    match hr : hyprRecord (JVal.jdict kvs) with
    | .ok r => exact ⟨r :: rs, by simp [hyprRecordLoop, hr, hrs]⟩
    | .error e => exact absurd hr (by simp [hyprRecord])

/-- Folding one more body line is one `lineUpdate` step. -/
theorem blockRecord_concat (nm conn : String) (body : List (List Char)) (l : List Char) :
    blockRecord nm conn (body ++ [l]) = lineUpdate (blockRecord nm conn body) l := by
  simp [blockRecord, List.foldl_append]

/-- The parsing loop computes exactly one `blockRecord` per block of the
decomposition, with the open block of the accumulator as the open record. -/
theorem niriParseLoop_blocks (lines : List (List Char)) :
    ∀ acc : Option (String × String × List (List Char)),
      niriParseLoop lines
          (Option.map (fun b => blockRecord b.1 b.2.1 b.2.2.reverse) acc) =
        (niriBlocksAux lines acc).map fun b => blockRecord b.1 b.2.1 b.2.2 := by
  induction lines with
  | nil =>
    intro acc
    rcases acc with _ | ⟨nm, conn, body⟩ <;> simp [niriParseLoop, niriBlocksAux]
  | cons line rest ih =>
    intro acc
    match hh : headerSearch (pyStripChars line) with
    | some (nm, conn) =>
      rcases acc with _ | ⟨nm0, conn0, body0⟩
      · simpa [niriParseLoop, niriBlocksAux, hh] using ih (some (nm, conn, []))
      · simpa [niriParseLoop, niriBlocksAux, hh] using ih (some (nm, conn, []))
    | none =>
      rcases acc with _ | ⟨nm0, conn0, body0⟩
      · simpa [niriParseLoop, niriBlocksAux, hh] using ih none
      · match hmo : modeSearch (pyStripChars line) with
        | some (res, rr) =>
          have hstep : NiriMonitor.mk (blockRecord nm0 conn0 body0.reverse).name
              (blockRecord nm0 conn0 body0.reverse).connector res
              (blockRecord nm0 conn0 body0.reverse).scale rr =
              blockRecord nm0 conn0 (line :: body0).reverse := by
            rw [List.reverse_cons, blockRecord_concat]
            simp only [lineUpdate, hmo]
          simp only [Option.map_some', niriParseLoop, hh, hmo]
          rw [hstep]
          simpa [niriBlocksAux, hh] using ih (some (nm0, conn0, line :: body0))
        | none =>
          match hs : scaleSearch (pyStripChars line) with
          | some sc =>
            have hstep : NiriMonitor.mk (blockRecord nm0 conn0 body0.reverse).name
                (blockRecord nm0 conn0 body0.reverse).connector
                (blockRecord nm0 conn0 body0.reverse).resolution sc
                (blockRecord nm0 conn0 body0.reverse).refresh_rate =
                blockRecord nm0 conn0 (line :: body0).reverse := by
              rw [List.reverse_cons, blockRecord_concat]
              simp only [lineUpdate, hmo, hs]
            simp only [Option.map_some', niriParseLoop, hh, hmo, hs]
            rw [hstep]
            simpa [niriBlocksAux, hh] using ih (some (nm0, conn0, line :: body0))
          | none =>
            have hstep : blockRecord nm0 conn0 body0.reverse =
                blockRecord nm0 conn0 (line :: body0).reverse := by
              rw [List.reverse_cons, blockRecord_concat]
              simp only [lineUpdate, hmo, hs]
            simp only [Option.map_some', niriParseLoop, hh, hmo, hs]
            rw [hstep]
            simpa [niriBlocksAux, hh] using ih (some (nm0, conn0, line :: body0))

/-- Body lines without a mode match never touch the resolution field. -/
theorem foldl_lineUpdate_resolution (body : List (List Char)) :
    ∀ m : NiriMonitor, (∀ l ∈ body, modeSearch (pyStripChars l) = none) →
      (body.foldl lineUpdate m).resolution = m.resolution := by
  induction body with
  | nil => intro m _; rfl
  | cons l rest ih =>
    intro m h
    have hl := h l (List.mem_cons_self _ _)
    simp only [List.foldl_cons]
    rw [ih _ fun x hx => h x (List.mem_cons_of_mem _ hx)]
    simp only [lineUpdate, hl]
    match hs : scaleSearch (pyStripChars l) with
    | some sc => rfl
    | none => rfl

/-- C3 counterexample: `HyprlandBackend.get_monitors` on discovery output that
is valid JSON (`[0]`) but whose array element is not an object raises
`AttributeError` (only `CalledProcessError` and `JSONDecodeError` are caught,
wall-it-hyprland-backend.py:82-85), refuting the claim that the parse never
raises on any input. -/
theorem C3_counterexample :
    hyprGetMonitors (.jsonVal (.jarr [.jnum 0])) = .error "AttributeError" := rfl

/-- C3 amended: the Niri line parser never fails, returns only records whose
header line matched the monitor-header pattern (one per header match, with
non-empty name and connector as the pattern groups require at least one
character), and its output is exactly one `blockRecord` per header block in
order, where a block whose body lines never match the mode pattern keeps the
"Unknown" resolution sentinel — also on mixed input in which other blocks do
parse a resolution; the Hyprland JSON parse returns `[]` on command failure or
undecodable JSON and succeeds on arrays of objects, with each record
connector being the element name value (defaulting to "Unknown", and empty
when the name field is the empty string), but a valid JSON document whose
elements are not objects makes it raise. -/
theorem C3_parse_robustness :
    (∀ raw, ∀ m ∈ niriParse raw, m.connector ≠ "" ∧ m.name ≠ "") ∧
    (∀ raw, ∀ m ∈ niriParse raw,
      (m.name, m.connector) ∈ headersOf (splitOnChar '\n' raw.data)) ∧
    (∀ raw, niriParse raw =
      (niriBlocks (splitOnChar '\n' raw.data)).map fun b =>
        blockRecord b.1 b.2.1 b.2.2) ∧
    (∀ nm conn body, (∀ l ∈ body, modeSearch (pyStripChars l) = none) →
      (blockRecord nm conn body).resolution = "Unknown") ∧
    (hyprGetMonitors .cmdError = .ok [] ∧ hyprGetMonitors .badJson = .ok []) ∧
    (∀ xs, (∀ x ∈ xs, ∃ kvs, x = JVal.jdict kvs) →
      ∃ rs, hyprGetMonitors (.jsonVal (.jarr xs)) = .ok rs) ∧
    (∀ kvs r, hyprRecord (.jdict kvs) = .ok r →
      dictLookup r "connector" =
        some ((dictLookup kvs "name").getD (.jstr "Unknown"))) ∧
    (∃ kvs r, hyprRecord (.jdict kvs) = .ok r ∧
      dictLookup r "connector" = some (.jstr "")) := by
  refine ⟨?_, ?_, ?_, ?_, ⟨rfl, rfl⟩, ?_, ?_, ?_⟩
  · intro raw m hm
    exact niriParseLoop_conn (splitOnChar '\n' raw.data) none (by rintro c hc; cases hc) m hm
  · intro raw m hm
    have hmap := niriParseLoop_ids (splitOnChar '\n' raw.data) none
    have : (m.name, m.connector) ∈
        (niriParseLoop (splitOnChar '\n' raw.data) none).map fun m => (m.name, m.connector) :=
      List.mem_map_of_mem _ hm
    rw [hmap] at this
    simpa using this
  · intro raw
    simpa [niriParse, niriBlocks] using
      niriParseLoop_blocks (splitOnChar '\n' raw.data) none
  · intro nm conn body h
    exact foldl_lineUpdate_resolution body (initMonitor nm conn) h
  · intro xs hxs
    rcases hyprRecordLoop_dicts xs hxs with ⟨rs, hrs⟩
    exact ⟨rs, by simp [hyprGetMonitors, hyprIter, hrs]⟩
  · intro kvs r h
    simp only [hyprRecord, Except.ok.injEq] at h
    subst h
    simp [dictLookup]
  · exact ⟨[("name", .jstr "")], _, rfl, rfl⟩

/-- C3 witness: a concrete parsed record has a non-empty connector, and a
concrete block whose body has no mode line keeps the "Unknown" sentinel. -/
theorem C3_parse_robustness_witness :
    ((initMonitor "A" "DP-1").connector ≠ "" ∧ (initMonitor "A" "DP-1").name ≠ "") ∧
    (blockRecord "B" "DP-2" ["junk line".data]).resolution = "Unknown" :=
  ⟨C3_parse_robustness.1 "Output \"A\" (DP-1)" (initMonitor "A" "DP-1") (by decide),
   C3_parse_robustness.2.2.2.1 "B" "DP-2" ["junk line".data] (by decide)⟩

/-- C7 counterexample: discovery text with two header blocks carrying the same
connector parses to two records for that connector, not one — the loop appends
a fresh record per header and never merges duplicates
(wall-it-backend-manager.py:117-156). -/
theorem C7_counterexample :
    ((niriParse "Output \"A\" (DP-1)\nOutput \"B\" (DP-1)").filter
      fun m => m.connector == "DP-1").length = 2 := by decide

/-- C7 amended: the parsed records are in one-to-one, order-preserving
correspondence with the header matches of the input, so a duplicated connector
name yields one record per header block at the positions where the blocks
appeared (each holding the fields of its own block); there is no overwrite-in-place
deduplication. -/
theorem C7_duplicate_headers_kept (raw : String) :
    (niriParse raw).map (fun m => (m.name, m.connector)) =
      headersOf (splitOnChar '\n' raw.data) := by
  simpa [niriParse] using niriParseLoop_ids (splitOnChar '\n' raw.data) none

/-- C6 counterexample: with the `swww` binary absent from `PATH`,
`NiriBackend.is_available` raises `FileNotFoundError` instead of returning a
boolean — the `try` block catches only `CalledProcessError`
(wall-it-backend-manager.py:99), refuting the claim that every probe failure
yields `false` without an exception. -/
theorem C6_counterexample :
    niri_is_available .notFound .ok = .error "FileNotFoundError" := rfl

/-- C6 amended: `isAvailable` returns a boolean whenever every executed probe
binary exists, with any non-zero probe exit (or, for Hyprland, a missing
desktop marker) yielding `false`; but a probed binary absent from `PATH`
makes `subprocess.run` raise `FileNotFoundError`, which `isAvailable` does not
catch (the detection loop of the Registry catches it instead). -/
theorem C6_available_probe :
    (∀ p q, p ≠ ProbeRes.notFound → q ≠ ProbeRes.notFound →
      ∃ b, niri_is_available p q = .ok b) ∧
    (∀ q, niri_is_available .exitNonzero q = .ok false) ∧
    (niri_is_available .ok .exitNonzero = .ok false) ∧
    (∀ d q, containsSub ("Hyprland".data) d.data = false →
      hyprland_is_available d q = .ok false) ∧
    (∀ d q, q ≠ ProbeRes.notFound → ∃ b, hyprland_is_available d q = .ok b) ∧
    (∀ d, hyprland_is_available d .exitNonzero = .ok false) := by
  refine ⟨?_, fun q => rfl, rfl, ?_, ?_, ?_⟩
  · intro p q hp hq
    cases p with
    | notFound => exact absurd rfl hp
    | exitNonzero => exact ⟨false, rfl⟩
    | ok =>
      cases q with
      | notFound => exact absurd rfl hq
      | exitNonzero => exact ⟨false, rfl⟩
      | ok => exact ⟨true, rfl⟩
  · intro d q hsub
    simp [hyprland_is_available, hsub]
  · intro d q hq
    by_cases hsub : containsSub ("Hyprland".data) d.data
    · cases q with
      | notFound => exact absurd rfl hq
      | exitNonzero => exact ⟨false, by simp [hyprland_is_available, hsub]⟩
      | ok => exact ⟨true, by simp [hyprland_is_available, hsub]⟩
    · exact ⟨false, by simp [hyprland_is_available, hsub]⟩
  · intro d
    by_cases hsub : containsSub ("Hyprland".data) d.data <;>
      simp [hyprland_is_available, hsub]

/-- C6 witness: with both probe binaries present and succeeding, the Niri
probe returns a boolean. -/
theorem C6_available_probe_witness :
    ∃ b, niri_is_available .ok .ok = .ok b :=
  C6_available_probe.1 .ok .ok (by decide) (by decide)

/-- C8 counterexample: when the `niri msg focused-output` command itself
fails, `get_active_monitor` returns `None` even though discovery has a
monitor — the `except` block returns without attempting the discovery
fallback (wall-it-backend-manager.py:196-198), refuting the claimed fallback
on query-command failure. -/
theorem C8_counterexample :
    niri_get_active_monitor .failed [initMonitor "M" "DP-1"] = none ∧
    ¬ niri_get_active_monitor .failed [initMonitor "M" "DP-1"] =
      some (initMonitor "M" "DP-1").connector := by
  constructor
  · rfl
  · intro h
    cases h

/-- C8 amended: when the focused-output query succeeds but no reply line
parses as an output header, the connector of the first freshly discovered
monitor is returned; a parsed reply line short-circuits the fallback; but a
failing query command returns `None` without attempting the discovery
fallback.  The Hyprland variant is fail-soft throughout: its broad exception
handler maps command failure, bad JSON and any loop exception to `None`, and
a decoded reply without a truthy `focused` entry falls back to the first
name of the first element. -/
theorem C8_active_monitor_fallback :
    (∀ out m ms,
      niriFocusedFromLines (splitOnChar '\n' (pyStripChars out.data)) = none →
      niri_get_active_monitor (.output out) (m :: ms) = some m.connector) ∧
    (∀ out conn monitors,
      niriFocusedFromLines (splitOnChar '\n' (pyStripChars out.data)) = some conn →
      niri_get_active_monitor (.output out) monitors = some conn) ∧
    (∀ monitors, niri_get_active_monitor .failed monitors = none) ∧
    (hypr_get_active_monitor .cmdError = none ∧ hypr_get_active_monitor .badJson = none) ∧
    (∀ v e, hyprActiveCore v = .error e → hypr_get_active_monitor (.jsonVal v) = none) ∧
    (∀ kvs rest, hyprFindFocused (JVal.jdict kvs :: rest) = .ok none →
      hyprActiveCore (.jarr (JVal.jdict kvs :: rest)) =
        .ok (some ((dictLookup kvs "name").getD .jnull))) := by
  refine ⟨?_, ?_, fun monitors => rfl, ⟨rfl, rfl⟩, ?_, ?_⟩
  · intro out m ms hnone
    simp [niri_get_active_monitor, hnone]
  · intro out conn monitors hsome
    simp [niri_get_active_monitor, hsome]
  · intro v e he
    simp [hypr_get_active_monitor, he]
  · intro kvs rest hfind
    simp [hyprActiveCore, hyprIter, hfind, pyTruthy]

/-- C8 witness: a garbage (yet successful) focused-output reply together with
one discovered monitor yields the connector of that monitor. -/
theorem C8_active_monitor_fallback_witness :
    niri_get_active_monitor (.output "garbage reply") [initMonitor "M" "DP-1"] =
      some "DP-1" :=
  C8_active_monitor_fallback.1 "garbage reply" (initMonitor "M" "DP-1") [] (by decide)

end WallIT
